import Mathlib

/-!
Verification of the TCP–VDA5050 bridge server (lakasli/TCP_VDA5050_bridge_server).

This file is a shallow embedding, in Lean 4, of the parts of the Python
source that the specification's claims are about:

* the binary frame codec (`src/tcp/tcp_binary_parser.py`,
  `src/tcp/manufacturer_a.py`);
* the order translator (`src/tcp/tcp_order.py`);
* the instant-action translator and its registry
  (`src/tcp/tcp_instantActions.py`, `src/tcp/manufacturer_a.py`);
* the uplink state / visualization converters (`src/tcp/tcp_state.py`,
  `src/tcp/tcp_visualization.py`).

Modelling conventions:

* Byte strings are `List Nat` with each element `< 256`; Python `struct`
  big-endian packing is spelled out as explicit division/modulus.
* Python floats are idealised as rationals (`ℚ`); the float constant
  `math.pi` is modelled by the rational literal `pihat`.
* Impure fragments (the time-based fallback of `generate_task_id`) are
  abstracted by an oracle parameter `fresh : Nat → String`; all theorems
  are proved for every oracle.
* JSON bodies travel through the codec as their serialised UTF-8 bytes;
  two frames carry the same JSON body exactly when those bytes coincide,
  so codec theorems are stated over arbitrary payload byte lists.
-/

/-! ### Binary frame codec

`src/tcp/tcp_binary_parser.py` (`TCPBinaryParser.build_tcp_packet`,
`TCPBinaryParser.parse_tcp_packet`) and
`src/tcp/manufacturer_a.py` (`create_binary_tcp_packet`,
`_parse_binary_packet`).  The 16-byte header is
sync (1) | version (1) | sequence (2, BE) | body-length (4, BE) |
message-type (2, BE) | reserved (6, zero). -/

/-- Big-endian 2-byte encoding, as produced by Python `struct.pack` with a
16-bit field (`>H`) or `int.to_bytes(2, 'big')`.  `struct.pack` raises for
values outside `[0, 2^16)`; theorems therefore carry that bound as a
hypothesis and the masking here is never exercised outside it. -/
def be2 (n : Nat) : List Nat := [n / 256 % 256, n % 256]

/-- Big-endian 4-byte encoding (`>I` / `int.to_bytes(4, 'big')`). -/
def be4 (n : Nat) : List Nat :=
  [n / 16777216 % 256, n / 65536 % 256, n / 256 % 256, n % 256]

/-- Big-endian decoding of 2 bytes (`struct.unpack('>H', ...)` /
`int.from_bytes(..., 'big')`). -/
def from2 (a b : Nat) : Nat := a * 256 + b

/-- Big-endian decoding of 4 bytes (`struct.unpack('>I', ...)`). -/
def from4 (a b c d : Nat) : Nat := a * 16777216 + b * 65536 + c * 256 + d

/-- `TCPBinaryParser.build_tcp_packet` (tcp_binary_parser.py, lines 156-192)
after the body has been serialised to UTF-8 bytes: sync `0x5A`, version
`0x01`, the sender's sequence counter, the payload length, the message
type, six reserved zero bytes, then the payload. -/
def build_tcp_packet (seq msgType : Nat) (payload : List Nat) : List Nat :=
  90 :: 1 :: (be2 seq ++ (be4 payload.length ++ (be2 msgType ++
    ([0, 0, 0, 0, 0, 0] ++ payload))))

/-- `ManufacturerATCPProtocol.create_binary_tcp_packet`
(manufacturer_a.py, lines 148-190): the same 16-byte header followed by the
UTF-8 JSON body.  The source builds the header with `bytearray` slice
assignments instead of `struct.pack`, byte for byte identically. -/
def create_binary_tcp_packet (seq msgType : Nat) (body : List Nat) : List Nat :=
  90 :: 1 :: (be2 seq ++ (be4 body.length ++ (be2 msgType ++
    ([0, 0, 0, 0, 0, 0] ++ body))))

/-- Decoded frame, following the dictionary returned by
`TCPBinaryParser.parse_tcp_packet`.  The source renders `sync_header` and
`version` as hex strings and also attaches a wall-clock timestamp and a
JSON decoding (`payload_parsed`) of the payload bytes; the numeric fields
and the raw payload bytes are the content and are kept here.  Equal payload
bytes decode to equal JSON bodies. -/
structure ParsedPacket where
  sync_header : Nat
  version : Nat
  sequence : Nat
  data_length : Nat
  message_type : Nat
  reserved : List Nat
  payload : List Nat
deriving DecidableEq

/-- `TCPBinaryParser.parse_tcp_packet` (tcp_binary_parser.py, lines
55-103): a packet shorter than 16 bytes is rejected, the header is parsed,
a sync byte other than `0x5A` is rejected (the function returns `None`, it
does not scan forward), a buffer shorter than `16 + body-length` is
rejected, and otherwise the payload is the `body-length` bytes after the
header. -/
def parse_tcp_packet : List Nat → Option ParsedPacket
  | sync :: ver :: s1 :: s0 :: l3 :: l2 :: l1 :: l0 :: t1 :: t0 ::
      r0 :: r1 :: r2 :: r3 :: r4 :: r5 :: rest =>
    let n := from4 l3 l2 l1 l0
    if sync = 90 then
      if rest.length < n then none
      else some ⟨sync, ver, from2 s1 s0, n, from2 t1 t0,
        [r0, r1, r2, r3, r4, r5], rest.take n⟩
    else none
  | _ => none

/-- Result of `ManufacturerATCPProtocol._parse_binary_packet`
(manufacturer_a.py, lines 288-341).  That parser checks only the minimum
length: it validates neither the sync byte nor the body length, and when
the buffer is shorter than `16 + body-length` it takes whatever bytes
follow the header. -/
structure MParsedPacket where
  sync_header : Nat
  version : Nat
  sequence : Nat
  data_length : Nat
  message_type : Nat
  payload : List Nat
deriving DecidableEq

/-- `ManufacturerATCPProtocol._parse_binary_packet` (manufacturer_a.py,
lines 288-341). -/
def parse_binary_packet : List Nat → Option MParsedPacket
  | s :: v :: s1 :: s0 :: l3 :: l2 :: l1 :: l0 :: t1 :: t0 ::
      _r0 :: _r1 :: _r2 :: _r3 :: _r4 :: _r5 :: rest =>
    let n := from4 l3 l2 l1 l0
    let payload := if n ≤ rest.length then rest.take n else rest
    some ⟨s, v, from2 s1 s0, n, from2 t1 t0, payload⟩
  | _ => none

/-- The claimed resync input of C3: garbage `FF FF`, then a valid frame of
body `{}` (bytes `7B 7D`), message type 5, sequence 1. -/
def c3Stream : List Nat :=
  [255, 255, 90, 1, 0, 1, 0, 0, 0, 2, 0, 5, 0, 0, 0, 0, 0, 0, 123, 125]

/-- The same bytes with the two-byte garbage prefix removed. -/
def c3Frame : List Nat :=
  [90, 1, 0, 1, 0, 0, 0, 2, 0, 5, 0, 0, 0, 0, 0, 0, 123, 125]

theorem from2_be2 (n : Nat) (h : n < 65536) :
    from2 (n / 256 % 256) (n % 256) = n := by
  unfold from2; omega

theorem from4_be4 (n : Nat) (h : n < 4294967296) :
    from4 (n / 16777216 % 256) (n / 65536 % 256) (n / 256 % 256) (n % 256) = n := by
  unfold from4; omega

/-- C2: for every frame `(messageType, body)` with a 16-bit message type
and the body's UTF-8 JSON serialisation as payload, decoding the bytes
produced by the frame encoder recovers the same message type and the very
same payload bytes — hence the same JSON body.  The bounds are the domain
of Python `struct.pack`: `>H` fields below `2^16` and the `>I` length
field below `2^32`. -/
theorem C2_framer_round_trip (seq msgType : Nat) (payload : List Nat)
    (hseq : seq < 65536) (ht : msgType < 65536)
    (hn : payload.length < 4294967296) :
    parse_tcp_packet (build_tcp_packet seq msgType payload) =
      some ⟨90, 1, seq, payload.length, msgType, [0, 0, 0, 0, 0, 0], payload⟩ := by
  unfold build_tcp_packet be2 be4
  simp only [List.cons_append, List.nil_append, parse_tcp_packet]
  rw [from4_be4 payload.length hn, from2_be2 seq hseq, from2_be2 msgType ht]
  simp

/-- C2 witness: the round trip at sequence 3, message type 5, body `{}`
(UTF-8 bytes `7B 7D`). -/
theorem C2_framer_round_trip_witness :
    parse_tcp_packet (build_tcp_packet 3 5 [123, 125]) =
      some ⟨90, 1, 3, 2, 5, [0, 0, 0, 0, 0, 0], [123, 125]⟩ :=
  C2_framer_round_trip 3 5 [123, 125] (by decide) (by decide) (by decide)

/-- C3 counterexample: on the stream the claim itself names
(`FF FF 5A 01 00 01 00 00 00 02 00 05 00 00 00 00 00 00 7B 7D`) the frame
decoder emits no frame at all: `parse_tcp_packet` rejects the non-`0x5A`
first byte outright, and `_parse_binary_packet`, which skips the sync
check, misparses the garbage as a header and reports message type 2, not
the claimed frame of type 5 with body `{}`.  No decoder in the source
scans forward for `0x5A` or discards a byte to resync. -/
theorem C3_counterexample :
    parse_tcp_packet c3Stream = none ∧
      (parse_binary_packet c3Stream).map MParsedPacket.message_type = some 2 := by
  decide

/-- C3 amended: the decoder does not resync.  Any buffer whose first byte
is not the sync byte `0x5A` yields no frame, whatever follows; the same
frame with the garbage prefix removed decodes to exactly one frame with
message type 5 and body `{}` (bytes `7B 7D`). -/
theorem C3_no_resync (b : Nat) (rest : List Nat) (hb : b ≠ 90) :
    parse_tcp_packet (b :: rest) = none ∧
      parse_tcp_packet c3Frame =
        some ⟨90, 1, 1, 2, 5, [0, 0, 0, 0, 0, 0], [123, 125]⟩ := by
  refine ⟨?_, by decide⟩
  rcases rest with _ | ⟨a1, rest⟩; · rfl
  rcases rest with _ | ⟨a2, rest⟩; · rfl
  rcases rest with _ | ⟨a3, rest⟩; · rfl
  rcases rest with _ | ⟨a4, rest⟩; · rfl
  rcases rest with _ | ⟨a5, rest⟩; · rfl
  rcases rest with _ | ⟨a6, rest⟩; · rfl
  rcases rest with _ | ⟨a7, rest⟩; · rfl
  rcases rest with _ | ⟨a8, rest⟩; · rfl
  rcases rest with _ | ⟨a9, rest⟩; · rfl
  rcases rest with _ | ⟨a10, rest⟩; · rfl
  rcases rest with _ | ⟨a11, rest⟩; · rfl
  rcases rest with _ | ⟨a12, rest⟩; · rfl
  rcases rest with _ | ⟨a13, rest⟩; · rfl
  rcases rest with _ | ⟨a14, rest⟩; · rfl
  rcases rest with _ | ⟨a15, rest⟩; · rfl
  simp [parse_tcp_packet, hb]

/-- C3 amended, witness: at the garbage byte `0xFF` the decoder emits
nothing, and the prefix-free frame decodes to type 5, body `{}`. -/
theorem C3_no_resync_witness :
    parse_tcp_packet (255 :: [255]) = none ∧
      parse_tcp_packet c3Frame =
        some ⟨90, 1, 1, 2, 5, [0, 0, 0, 0, 0, 0], [123, 125]⟩ :=
  C3_no_resync 255 [255] (by decide)

/-- C5: every byte string produced by the frame encoder starts with the
16-byte header — byte 0 is `0x5A`, byte 1 is `0x01`, bytes 2-3 carry the
sequence counter big-endian, bytes 4-7 carry the body length big-endian,
bytes 8-9 carry the message type big-endian, bytes 10-15 are zero — and
the body follows immediately with exactly that length.  The statement
covers `create_binary_tcp_packet` (manufacturer_a.py) and notes that
`build_tcp_packet` (tcp_binary_parser.py) produces the identical bytes. -/
theorem C5_header_layout (seq msgType : Nat) (body : List Nat)
    (hseq : seq < 65536) (ht : msgType < 65536)
    (hn : body.length < 4294967296) :
    (create_binary_tcp_packet seq msgType body).length = 16 + body.length ∧
    (create_binary_tcp_packet seq msgType body).getD 0 0 = 90 ∧
    (create_binary_tcp_packet seq msgType body).getD 1 0 = 1 ∧
    from2 ((create_binary_tcp_packet seq msgType body).getD 2 0)
      ((create_binary_tcp_packet seq msgType body).getD 3 0) = seq ∧
    from4 ((create_binary_tcp_packet seq msgType body).getD 4 0)
      ((create_binary_tcp_packet seq msgType body).getD 5 0)
      ((create_binary_tcp_packet seq msgType body).getD 6 0)
      ((create_binary_tcp_packet seq msgType body).getD 7 0) = body.length ∧
    from2 ((create_binary_tcp_packet seq msgType body).getD 8 0)
      ((create_binary_tcp_packet seq msgType body).getD 9 0) = msgType ∧
    ((create_binary_tcp_packet seq msgType body).drop 10).take 6 =
      [0, 0, 0, 0, 0, 0] ∧
    (create_binary_tcp_packet seq msgType body).drop 16 = body ∧
    build_tcp_packet seq msgType body = create_binary_tcp_packet seq msgType body := by
  unfold create_binary_tcp_packet build_tcp_packet be2 be4
  simp only [List.cons_append, List.nil_append]
  refine ⟨?_, ?_, ?_, ?_, ?_, ?_, ?_, ?_, ?_⟩
  · simp only [List.length_cons]; omega
  · rfl
  · rfl
  · exact from2_be2 seq hseq
  · exact from4_be4 body.length hn
  · exact from2_be2 msgType ht
  · rfl
  · rfl
  · trivial

/-- C5 witness: the layout at sequence 1, message type 5, body `{}`. -/
theorem C5_header_layout_witness :
    (create_binary_tcp_packet 1 5 [123, 125]).length = 16 + 2 ∧
    (create_binary_tcp_packet 1 5 [123, 125]).getD 0 0 = 90 ∧
    (create_binary_tcp_packet 1 5 [123, 125]).getD 1 0 = 1 ∧
    from2 ((create_binary_tcp_packet 1 5 [123, 125]).getD 2 0)
      ((create_binary_tcp_packet 1 5 [123, 125]).getD 3 0) = 1 ∧
    from4 ((create_binary_tcp_packet 1 5 [123, 125]).getD 4 0)
      ((create_binary_tcp_packet 1 5 [123, 125]).getD 5 0)
      ((create_binary_tcp_packet 1 5 [123, 125]).getD 6 0)
      ((create_binary_tcp_packet 1 5 [123, 125]).getD 7 0) = 2 ∧
    from2 ((create_binary_tcp_packet 1 5 [123, 125]).getD 8 0)
      ((create_binary_tcp_packet 1 5 [123, 125]).getD 9 0) = 5 ∧
    ((create_binary_tcp_packet 1 5 [123, 125]).drop 10).take 6 =
      [0, 0, 0, 0, 0, 0] ∧
    (create_binary_tcp_packet 1 5 [123, 125]).drop 16 = [123, 125] ∧
    build_tcp_packet 1 5 [123, 125] = create_binary_tcp_packet 1 5 [123, 125] :=
  C5_header_layout 1 5 [123, 125] (by decide) (by decide) (by decide)

/-! ### Action registry

`VDA5050_TO_TCP_ACTION_MAPPING` and the per-action port / message-type
tables.  The mapping table appears with identical content in
`src/tcp/tcp_order.py`, `src/tcp/tcp_instantActions.py`
(`ACTION_MAPPING`) and `src/tcp/manufacturer_a.py`; it is embedded once.
The port-number to port-role correspondence is the bridge server's default
`command_control` table (`src/mqtt_tcp_bridge_server.py`,
`_load_tcp_port_mapping`): movement 19206, relocation 19205,
authority 19207, safety 19210. -/

/-- `VDA5050_TO_TCP_ACTION_MAPPING` (tcp_order.py lines 20-33,
tcp_instantActions.py lines 50-63, manufacturer_a.py lines 22-35; the
three copies are identical). -/
def ACTION_MAPPING : String → Option String := fun t =>
  if t = "pick" then some "JackLoad"
  else if t = "drop" then some "JackUnload"
  else if t = "translate" then some "Translate"
  else if t = "turn" then some "Turn"
  else if t = "rotateLoad" then some "RotateLoad"
  else if t = "softEmc" then some "EmergencyStop"
  else if t = "startPause" then some "Pause"
  else if t = "stopPause" then some "Resume"
  else if t = "cancelOrder" then some "Cancel"
  else if t = "reloc" then some "Reloc"
  else if t = "cancelReloc" then some "CancelReloc"
  else if t = "clearErrors" then some "ClearErrors"
  else none

/-- `DataFormatType` (tcp_instantActions.py, lines 18-22). -/
inductive DataFormatType where
  | move_task_list
  | empty_data
  | single_field
deriving DecidableEq

/-- `ActionConfig` (tcp_instantActions.py, lines 25-30). -/
structure ActionConfig where
  port : Nat
  message_type : Nat
  data_format : DataFormatType
deriving DecidableEq

/-- `VDA5050InstantActionsToTCPConverter.ACTION_CONFIG`
(tcp_instantActions.py, lines 66-79).  Note: the table has exactly these
twelve keys; in particular `grabAuthority` and `releaseAuthority` are
absent, although `src/test_instant_actions_fix.py` expects them at
(19207, 4005) and (19207, 4006). -/
def ACTION_CONFIG : String → Option ActionConfig := fun t =>
  if t = "pick" then some ⟨19206, 3066, .move_task_list⟩
  else if t = "drop" then some ⟨19206, 3066, .move_task_list⟩
  else if t = "startPause" then some ⟨19206, 3001, .empty_data⟩
  else if t = "stopPause" then some ⟨19206, 3002, .empty_data⟩
  else if t = "cancelOrder" then some ⟨19206, 3003, .empty_data⟩
  else if t = "reloc" then some ⟨19205, 2002, .single_field⟩
  else if t = "cancelReloc" then some ⟨19205, 2004, .empty_data⟩
  else if t = "clearErrors" then some ⟨19207, 4009, .single_field⟩
  else if t = "rotateLoad" then some ⟨19206, 3057, .single_field⟩
  else if t = "softEmc" then some ⟨19210, 6004, .single_field⟩
  else if t = "turn" then some ⟨19206, 3056, .single_field⟩
  else if t = "translate" then some ⟨19206, 3055, .single_field⟩
  else none

/-- `ManufacturerATCPProtocol.INSTANT_ACTION_CONFIG` (manufacturer_a.py,
lines 38-51): the same twelve (port, messageType) rows, again without
`grabAuthority` / `releaseAuthority`. -/
def INSTANT_ACTION_CONFIG : String → Option (Nat × Nat) := fun t =>
  if t = "pick" then some (19206, 3066)
  else if t = "drop" then some (19206, 3066)
  else if t = "startPause" then some (19206, 3001)
  else if t = "stopPause" then some (19206, 3002)
  else if t = "cancelOrder" then some (19206, 3003)
  else if t = "reloc" then some (19205, 2002)
  else if t = "cancelReloc" then some (19205, 2004)
  else if t = "clearErrors" then some (19207, 4009)
  else if t = "rotateLoad" then some (19206, 3057)
  else if t = "softEmc" then some (19210, 6004)
  else if t = "turn" then some (19206, 3056)
  else if t = "translate" then some (19206, 3055)
  else none

/-- Default movement-role port (`command_control.movement`,
mqtt_tcp_bridge_server.py line 332). -/
def movement_port : Nat := 19206

/-- Default relocation-role port (`command_control.relocation`, line 331). -/
def relocation_port : Nat := 19205

/-- Default authority-role port (`command_control.authority`, line 333). -/
def authority_port : Nat := 19207

/-- Default safety-role port (`command_control.safety`, line 334). -/
def safety_port : Nat := 19210

/-- C4, evaluated on the code: the twelve rows the registry does contain
match the claimed (port role, message type, body shape) triples, but the
claimed `grabAuthority → (authority, 4005, params)` and
`releaseAuthority → (authority, 4006, params)` rows are missing from both
registries — those two actions fall through as unrecognised.  The
repository's own test (`src/test_instant_actions_fix.py`, lines 109-129
and 223-228) expects `ACTION_CONFIG` to carry exactly the missing rows, so
this is a divergence of the code from its own tests. -/
theorem C4_registry_rows :
    ACTION_CONFIG "pick" = some ⟨movement_port, 3066, .move_task_list⟩ ∧
    ACTION_CONFIG "drop" = some ⟨movement_port, 3066, .move_task_list⟩ ∧
    ACTION_CONFIG "startPause" = some ⟨movement_port, 3001, .empty_data⟩ ∧
    ACTION_CONFIG "stopPause" = some ⟨movement_port, 3002, .empty_data⟩ ∧
    ACTION_CONFIG "cancelOrder" = some ⟨movement_port, 3003, .empty_data⟩ ∧
    ACTION_CONFIG "translate" = some ⟨movement_port, 3055, .single_field⟩ ∧
    ACTION_CONFIG "turn" = some ⟨movement_port, 3056, .single_field⟩ ∧
    ACTION_CONFIG "rotateLoad" = some ⟨movement_port, 3057, .single_field⟩ ∧
    ACTION_CONFIG "reloc" = some ⟨relocation_port, 2002, .single_field⟩ ∧
    ACTION_CONFIG "cancelReloc" = some ⟨relocation_port, 2004, .empty_data⟩ ∧
    ACTION_CONFIG "clearErrors" = some ⟨authority_port, 4009, .single_field⟩ ∧
    ACTION_CONFIG "softEmc" = some ⟨safety_port, 6004, .single_field⟩ ∧
    ACTION_CONFIG "grabAuthority" = none ∧
    ACTION_CONFIG "releaseAuthority" = none ∧
    INSTANT_ACTION_CONFIG "grabAuthority" = none ∧
    INSTANT_ACTION_CONFIG "releaseAuthority" = none ∧
    ACTION_MAPPING "grabAuthority" = none ∧
    ACTION_MAPPING "releaseAuthority" = none := by
  decide

/-! ### Order translator

`VDA5050ToTCPConverter.convert_vda5050_order_to_tcp_move_task_list`
(`src/tcp/tcp_order.py`, lines 101-224) together with
`ManufacturerATCPProtocol.generate_task_id` (manufacturer_a.py, lines
489-507).  Orders are modelled as typed records; missing/falsy string
fields are the empty string or `Option.none` as in the source's
`dict.get` defaults. -/

/-- A VDA5050 action attached to a node or an edge, as read by
`extract_all_operations_from_actions` (tcp_order.py, lines 83-99). -/
structure OAction where
  actionType : Option String
  actionId : Option String
  actionDescription : Option String
deriving DecidableEq

/-- An order node: `nodeId`, `sequenceId` and its attached actions
(an absent `actions` key is the empty list). -/
structure ONode where
  nodeId : String
  sequenceId : Nat
  actions : List OAction
deriving DecidableEq

/-- An order edge: `edgeId`, `sequenceId`, endpoints and attached actions. -/
structure OEdge where
  edgeId : String
  sequenceId : Nat
  startNodeId : String
  endNodeId : String
  actions : List OAction
deriving DecidableEq

/-- Element of the operation lists built by
`extract_all_operations_from_actions`: vendor operation name plus the
carried-along `actionId` / `actionDescription`. -/
structure OpInfo where
  operation : String
  action_id : String
  action_description : String
deriving DecidableEq

/-- `extract_all_operations_from_actions` (tcp_order.py, lines 83-99):
keep, in order, the actions whose `actionType` is truthy and found in the
mapping table. -/
def extract_all_operations_from_actions (actions : List OAction) : List OpInfo :=
  actions.filterMap (fun a =>
    match a.actionType with
    | some t => (ACTION_MAPPING t).map
        (fun op => ⟨op, a.actionId.getD "", a.actionDescription.getD ""⟩)
    | none => none)

/-- One entry of the emitted `move_task_list`: a move step carries
`operation = none`, an in-place action step carries
`source_id = id = "SELF_POSITION"` and `operation = some op`. -/
structure MoveTask where
  source_id : String
  id : String
  task_id : String
  operation : Option String
deriving DecidableEq

/-- `generate_tcp_task_id` (tcp_order.py, lines 55-67) on top of
`ManufacturerATCPProtocol.generate_task_id` (manufacturer_a.py, lines
489-507): with a truthy base whose `strip()` is truthy the id is
`base ++ "_" ++ counter` and the protocol counter is saved and restored
(no net state change); otherwise the impure time-stamped fallback runs,
abstracted here by the oracle `fresh` applied at the current counter. -/
def order_generate_task_id (fresh : Nat → String) (base : String) (k : Nat) : String :=
  if base ≠ "" ∧ base.data.any (fun c => !c.isWhitespace) then
    base ++ "_" ++ toString k
  else fresh k

/-- Insertion preserving the original position of an existing key, i.e.
Python `dict` assignment. -/
def dictInsert (m : List (String × List OpInfo)) (k : String)
    (v : List OpInfo) : List (String × List OpInfo) :=
  if m.any (fun e => e.1 = k) then
    m.map (fun e => if e.1 = k then (k, v) else e)
  else m ++ [(k, v)]

/-- Python `del d[k]`. -/
def dictDelete (m : List (String × List OpInfo)) (k : String) :
    List (String × List OpInfo) :=
  m.filter (fun e => e.1 ≠ k)

/-- The `node_actions_map` construction (tcp_order.py, lines 111-120):
nodes with a truthy `nodeId`, a non-empty `actions` list and at least one
recognised operation, in node-list order. -/
def build_node_actions_map (nodes : List ONode) : List (String × List OpInfo) :=
  nodes.foldl (fun m n =>
    let ops := extract_all_operations_from_actions n.actions
    if n.nodeId ≠ "" ∧ n.actions ≠ [] ∧ ops ≠ [] then dictInsert m n.nodeId ops
    else m) []

/-- Stable insertion into an already sorted list: the new element goes
after every element whose `sequenceId` is `≤` its own. -/
def insertBySeq (e : OEdge) : List OEdge → List OEdge
  | [] => [e]
  | f :: fs => if f.sequenceId ≤ e.sequenceId then f :: insertBySeq e fs
               else e :: f :: fs

/-- `sorted(edges, key=lambda x: x.get('sequenceId', 0))` (tcp_order.py,
line 129): a stable sort by `sequenceId`; stable insertion sort computes
the same list as Python's stable Timsort. -/
def sortEdges (edges : List OEdge) : List OEdge :=
  edges.foldl (fun acc e => insertBySeq e acc) []

/-- Emit one in-place action step per operation, advancing the task-id
counter (tcp_order.py, lines 148-155 and the analogous later blocks). -/
def in_place_tasks (fresh : Nat → String) (pre : String) (ops : List OpInfo)
    (k : Nat) : List MoveTask × Nat :=
  ops.foldl (fun acc o =>
    (acc.1 ++ [⟨"SELF_POSITION", "SELF_POSITION",
        order_generate_task_id fresh pre acc.2, some o.operation⟩],
      acc.2 + 1))
    ([], k)

/-- The main edge loop (tcp_order.py, lines 134-185): per edge, first the
pending start-node actions (then removed from the map), then the move
step, then any edge actions as in-place steps. -/
def process_edges (fresh : Nat → String) (pre : String) :
    List OEdge → Nat → List (String × List OpInfo) →
      List MoveTask × Nat × List (String × List OpInfo)
  | [], k, m => ([], k, m)
  | e :: es, k, m =>
    if e.startNodeId = "" ∨ e.endNodeId = "" then
      process_edges fresh pre es k m
    else
      let startStep :=
        match List.lookup e.startNodeId m with
        | some ops =>
          if ops ≠ [] then
            let r := in_place_tasks fresh pre ops k
            (r.1, r.2, dictDelete m e.startNodeId)
          else ([], k, m)
        | none => ([], k, m)
      let k1 := startStep.2.1
      let moveTask : MoveTask :=
        ⟨e.startNodeId, e.endNodeId, order_generate_task_id fresh pre k1, none⟩
      let edgeOps := extract_all_operations_from_actions e.actions
      let midStep :=
        if edgeOps ≠ [] then
          let r := in_place_tasks fresh pre edgeOps (k1 + 1)
          (moveTask :: r.1, r.2)
        else ([moveTask], k1 + 1)
      let restStep := process_edges fresh pre es midStep.2 startStep.2.2
      (startStep.1 ++ midStep.1 ++ restStep.1, restStep.2.1, restStep.2.2)

/-- Step 3 of the loop (tcp_order.py, lines 187-204): after the last edge,
pending actions of its `endNodeId` are emitted and removed. -/
def process_last_edge (fresh : Nat → String) (pre : String)
    (sortedEdges : List OEdge) (k : Nat) (m : List (String × List OpInfo)) :
    List MoveTask × Nat × List (String × List OpInfo) :=
  match sortedEdges.getLast? with
  | some le =>
    if le.endNodeId ≠ "" then
      match List.lookup le.endNodeId m with
      | some ops =>
        let r := in_place_tasks fresh pre ops k
        (r.1, r.2, dictDelete m le.endNodeId)
      | none => ([], k, m)
    else ([], k, m)
  | none => ([], k, m)

/-- Step 4 of the loop (tcp_order.py, lines 206-216): remaining node
actions, in map (insertion) order. -/
def process_leftovers (fresh : Nat → String) (pre : String)
    (m : List (String × List OpInfo)) (k : Nat) : List MoveTask :=
  (m.foldl (fun acc e =>
    let r := in_place_tasks fresh pre e.2 acc.2
    (acc.1 ++ r.1, r.2)) (([] : List MoveTask), k)).1

/-- `convert_vda5050_order_to_tcp_move_task_list` (tcp_order.py, lines
101-224): the emitted `move_task_list`. -/
def convert_vda5050_order_to_tcp_move_task_list (fresh : Nat → String)
    (orderId : Option String) (nodes : List ONode) (edges : List OEdge) :
    List MoveTask :=
  let m0 := build_node_actions_map nodes
  let pre := orderId.getD "DEFAULT_ORDER"
  let se := sortEdges edges
  let afterEdges := process_edges fresh pre se 1 m0
  let afterLast := process_last_edge fresh pre se afterEdges.2.1 afterEdges.2.2
  afterEdges.1 ++ afterLast.1 ++
    process_leftovers fresh pre afterLast.2.2 afterLast.2.1

/-- The order of claim C1: `orderId = "ORD1"`, nodes N1 (seq 0, one pick
action), N2 (seq 2), N3 (seq 4). -/
def ord1_nodes : List ONode :=
  [⟨"N1", 0, [⟨some "pick", some "A1", none⟩]⟩, ⟨"N2", 2, []⟩, ⟨"N3", 4, []⟩]

/-- Edges E1 (seq 1, N1→N2) and E2 (seq 3, N2→N3) of claim C1. -/
def ord1_edges : List OEdge :=
  [⟨"E1", 1, "N1", "N2", []⟩, ⟨"E2", 3, "N2", "N3", []⟩]

/-- C1: on the ORD1 order the translator emits exactly the in-place
`JackLoad` step, the move N1→N2 and the move N2→N3, in that order, with
task ids `ORD1_1`, `ORD1_2`, `ORD1_3` — derived from the orderId and a
counter starting at 1, unique and increasing.  The time-based task-id
fallback oracle is never consulted, so the result holds for every
oracle. -/
theorem C1_order_translation (fresh : Nat → String) :
    convert_vda5050_order_to_tcp_move_task_list fresh (some "ORD1")
        ord1_nodes ord1_edges =
      [⟨"SELF_POSITION", "SELF_POSITION", "ORD1_1", some "JackLoad"⟩,
       ⟨"N1", "N2", "ORD1_2", none⟩,
       ⟨"N2", "N3", "ORD1_3", none⟩] := by
  with_unfolding_all rfl

/-! ### Uplink state and visualization converters

`AGVToVDA5050Converter.convert_agv_data_to_vda5050_state`
(`src/tcp/tcp_state.py`, lines 32-191) and
`TCPStateToVisualizationConverter._extract_agv_position`
(`src/tcp/tcp_visualization.py`, lines 86-154).  Python floats are
idealised as rationals; the float constant `math.pi` is modelled by the
rational literal `pihat`. -/

/-- The model's `math.pi`: the code's float constant, idealised as a
rational. -/
def pihat : ℚ := 3.141592653589793

/-- Python float `%` on a positive divisor: `x - y * ⌊x / y⌋`, the
representative in `[0, y)`. -/
def qfmod (x y : ℚ) : ℚ := x - y * ⌊x / y⌋

theorem qfmod_nonneg_lt (x y : ℚ) (hy : 0 < y) :
    0 ≤ qfmod x y ∧ qfmod x y < y := by
  unfold qfmod
  constructor
  · have h1 : ((⌊x / y⌋ : ℚ)) ≤ x / y := Int.floor_le _
    have h2 : y * ((⌊x / y⌋ : ℚ)) ≤ y * (x / y) :=
      mul_le_mul_of_nonneg_left h1 hy.le
    have h3 : y * (x / y) = x := by field_simp
    linarith
  · have h1 : x / y < (⌊x / y⌋ : ℚ) + 1 := Int.lt_floor_add_one _
    have h2 : y * (x / y) < y * ((⌊x / y⌋ : ℚ) + 1) :=
      mul_lt_mul_of_pos_left h1 hy
    have h3 : y * (x / y) = x := by field_simp
    have h4 : y * ((⌊x / y⌋ : ℚ) + 1) = y * (⌊x / y⌋ : ℚ) + y := by ring
    linarith

/-- A vendor state-push payload, as read through `agv_data.get(...)` by
the two converters: every field the embedded fragments touch, each
optional exactly as a missing dictionary key. -/
structure AgvData where
  vehicle_id : Option String
  current_map : Option String
  x : Option ℚ
  y : Option ℚ
  angle : Option ℚ
  vx : Option ℚ
  vy : Option ℚ
  w : Option ℚ
  is_stop : Option Bool
  confidence : Option ℚ
  deviation_range : Option ℚ
  battery_level : Option ℚ
  voltage : Option ℚ
  charging : Option Bool
  emergency : Option Bool
  soft_emc : Option Bool
  blocked : Option Bool

/-- The `agvPosition` the state converter builds (tcp_state.py, lines
57-65): a `NodePosition` with the raw `angle` as `theta` — no radians
conversion, no normalisation, and no `localizationScore` field at all
(`confidence` feeds only the free-form `information` list). -/
structure StateAgvPosition where
  x : ℚ
  y : ℚ
  theta : ℚ
  map_id : String
deriving DecidableEq

/-- The fields of the produced `StateMessage` that the claims are about
(tcp_state.py, lines 162-189), plus the neighbouring safety/mode fields
for context. -/
structure StateOut where
  serial_number : String
  agv_position : Option StateAgvPosition
  driving : Bool
  paused : Bool
  e_stop : String
  field_violation : Bool
  operating_mode : String
  battery_charge : ℚ

/-- `convert_agv_data_to_vda5050_state` (tcp_state.py, lines 32-191),
restricted to the pure field computations: `theta` is
`float(agv_data.get('angle', 0.0))` verbatim; `driving` is
`not agv_data.get('is_stop', True)`; `paused` is
`agv_data.get('is_stop', False)`; `eStop` is `TRIGGERED` iff
`emergency or soft_emc`; `operating_mode` follows
`_determine_operating_mode` (lines 205-214). -/
def convert_agv_data_to_vda5050_state (d : AgvData) : StateOut :=
  { serial_number := d.vehicle_id.getD "AGV_001"
    agv_position :=
      if d.x.isSome ∧ d.y.isSome then
        some ⟨d.x.getD 0, d.y.getD 0, d.angle.getD 0,
          d.current_map.getD "default_map"⟩
      else none
    driving := !(d.is_stop.getD true)
    paused := d.is_stop.getD false
    e_stop := if d.emergency.getD false || d.soft_emc.getD false then
        "TRIGGERED" else "AUTOACK"
    field_violation := d.blocked.getD false
    operating_mode :=
      if d.emergency.getD false then "EMERGENCY"
      else if d.soft_emc.getD false then "SEMIAUTOMATIC"
      else if d.charging.getD false then "SERVICE"
      else "AUTOMATIC"
    battery_charge := d.battery_level.getD 0 }

/-- The `AGVPosition` built by the visualization converter
(tcp_visualization.py, lines 86-154). -/
structure VizAgvPosition where
  x : ℚ
  y : ℚ
  theta : ℚ
  map_id : String
  position_initialized : Bool
  localization_score : Option ℚ
  deviation_range : Option ℚ

/-- The angle normalisation of `_extract_agv_position`
(tcp_visualization.py, lines 113-123): an angle with `|angle| > 2π` is
taken to be degrees and converted via `math.radians`, then the result is
reduced to `[-π, π)` by `((theta + π) % 2π) - π`. -/
def normalize_theta (a : ℚ) : ℚ :=
  let theta0 := if 2 * pihat < |a| then a * (pihat / 180) else a
  qfmod (theta0 + pihat) (2 * pihat) - pihat

/-- `_extract_agv_position` (tcp_visualization.py, lines 86-154): requires
`x`, `y` and `angle`; normalises `theta`; clamps a present `confidence`
into `[0, 1]` as `localization_score`; `map_id` falls back to
`"unknown_map"` on a falsy `current_map`. -/
def extract_agv_position (d : AgvData) : Option VizAgvPosition :=
  match d.x, d.y, d.angle with
  | some xv, some yv, some av =>
    some ⟨xv, yv, normalize_theta av,
      (match d.current_map with
       | some m => if m = "" then "unknown_map" else m
       | none => "unknown_map"),
      true,
      d.confidence.map (fun c => max 0 (min 1 c)),
      d.deviation_range⟩
  | _, _, _ => none

/-- The vendor payload of spec scenario 4:
`{"vehicle_id":"A","x":1,"y":2,"angle":180,"current_map":"m",
"battery_level":0.5,"emergency":false,"is_stop":true}`. -/
def scenario4Data : AgvData :=
  ⟨some "A", some "m", some 1, some 2, some 180, none, none, none,
   some true, none, none, some (1/2), none, none, some false, none, none⟩

/-- C6 counterexample: on the scenario-4 payload (`angle = 180`) the
*state* publish carries `agvPosition.theta = 180`, the raw vendor angle —
the state converter never converts degrees or normalises — and
`180 > π`, so the claimed invariant `theta ∈ [-π, π]` fails on the state
topic.  (It is the visualization converter that normalises; see the
amended theorem.) -/
theorem C6_counterexample :
    (convert_agv_data_to_vda5050_state scenario4Data).agv_position.map
        StateAgvPosition.theta = some 180 ∧
      ¬ (((180 : ℚ) : ℝ) ≤ Real.pi) := by
  constructor
  · rfl
  · have h : Real.pi < 180 := lt_trans Real.pi_lt_d2 (by norm_num)
    push_cast
    exact not_le.mpr h

/-- C6 amended: it is the visualization converter's `agvPosition` that
satisfies the claim.  For every payload carrying `x`, `y`, an angle and a
confidence, `_extract_agv_position` yields `theta ∈ [-π, π)` (for the
code's float `π`, whose value is below the real `π`) — an angle with
`|angle| > 2π` being first interpreted as degrees — and a
`localizationScore` clamped into `[0, 1]`.  The state converter instead
copies the raw angle and never sets a localization score. -/
theorem C6_visualization_position_bounds (xv yv av cv : ℚ)
    (cm : Option String) (dr : Option ℚ) :
    ∃ pos, extract_agv_position
        ⟨none, cm, some xv, some yv, some av, none, none, none, none,
         some cv, dr, none, none, none, none, none, none⟩ = some pos ∧
      -pihat ≤ pos.theta ∧ pos.theta < pihat ∧
      pos.localization_score = some (max 0 (min 1 cv)) ∧
      0 ≤ max 0 (min 1 cv) ∧ max 0 (min 1 cv) ≤ (1 : ℚ) := by
  refine ⟨_, rfl, ?_, ?_, rfl, le_max_left 0 _, max_le (by norm_num) (min_le_left 1 cv)⟩
  · have h := qfmod_nonneg_lt
      ((if 2 * pihat < |av| then av * (pihat / 180) else av) + pihat)
      (2 * pihat) (by norm_num [pihat])
    simp only [extract_agv_position, normalize_theta]
    linarith [h.1]
  · have h := qfmod_nonneg_lt
      ((if 2 * pihat < |av| then av * (pihat / 180) else av) + pihat)
      (2 * pihat) (by norm_num [pihat])
    simp only [extract_agv_position, normalize_theta]
    linarith [h.2]

/-- Modelled from the spec's words, for comparison with the code:
"`driving := ¬is_stop` (when `is_stop` absent: default to motion ≠ 0)". -/
def spec_driving_default (is_stop : Option Bool) (motion_nonzero : Bool) : Bool :=
  match is_stop with
  | some b => !b
  | none => motion_nonzero

/-- A payload with `is_stop` absent and non-zero velocity (`vx = 0.5`). -/
def c7Data : AgvData :=
  ⟨some "A", none, some 1, some 2, some 0, some (1/2), some 0, some 0,
   none, none, none, none, none, none, none, none, none⟩

/-- C7 counterexample: with `is_stop` absent and motion `vx = 0.5 ≠ 0`
the claim's rule (`spec_driving_default`) demands `driving = true`, but
the code computes `driving = not agv_data.get('is_stop', True) = false` —
the velocity is never consulted. -/
theorem C7_counterexample :
    (convert_agv_data_to_vda5050_state c7Data).driving = false ∧
      c7Data.vx = some (1/2) ∧ ((1 : ℚ)/2 ≠ 0) ∧
      spec_driving_default c7Data.is_stop true = true := by
  refine ⟨rfl, rfl, by norm_num, rfl⟩

/-- C7 amended: `paused` equals the payload's `is_stop` with absent
defaulting to `false`, and `driving` equals the negation of `is_stop`
with absent defaulting to `true` — so with `is_stop` absent, `driving` is
`false` regardless of the reported velocity.  When `is_stop` is present
the claim's first half holds exactly: `paused = is_stop` and
`driving = ¬ is_stop`. -/
theorem C7_paused_driving (d : AgvData) (b : Bool) :
    (convert_agv_data_to_vda5050_state d).paused = d.is_stop.getD false ∧
    (convert_agv_data_to_vda5050_state d).driving = !(d.is_stop.getD true) ∧
    (d.is_stop = some b →
      (convert_agv_data_to_vda5050_state d).paused = b ∧
      (convert_agv_data_to_vda5050_state d).driving = !b) ∧
    (∀ v1 v2 v3, (convert_agv_data_to_vda5050_state
        { d with vx := v1, vy := v2, w := v3 }).driving =
      (convert_agv_data_to_vda5050_state d).driving) := by
  refine ⟨rfl, rfl, ?_, fun v1 v2 v3 => rfl⟩
  intro h
  rw [show (convert_agv_data_to_vda5050_state d).paused = d.is_stop.getD false from rfl,
    show (convert_agv_data_to_vda5050_state d).driving = !(d.is_stop.getD true) from rfl, h]
  exact ⟨rfl, rfl⟩

/-- C7 amended, witness: on the scenario-4 payload (`is_stop = true`),
`paused = true` and `driving = ¬true`. -/
theorem C7_paused_driving_witness :
    (convert_agv_data_to_vda5050_state scenario4Data).paused = true ∧
    (convert_agv_data_to_vda5050_state scenario4Data).driving = !true :=
  (C7_paused_driving scenario4Data true).2.2.1 rfl

/-! ### Instant-action translator

`VDA5050InstantActionsToTCPConverter` (`src/tcp/tcp_instantActions.py`):
`_parse_action_parameters` (lines 284-307), `_generate_single_field_data`
(lines 177-282), `_generate_tcp_data` (lines 141-175),
`convert_single_action` (lines 108-139) and
`convert_vda5050_instant_actions` (lines 309-378). -/

/-- A Python value carried by an action parameter: booleans, numbers
(idealised as rationals), strings, and the integer lists of
`clearErrors`.  `float()` applied to a non-numeric string raises, which
the model maps to `none`; parsing of numeric strings is not modelled, so
theorems over parameters assume numeric parameters arrive as numbers. -/
inductive PVal where
  | pbool (b : Bool)
  | pnum (q : ℚ)
  | pstr (s : String)
  | plist (l : List Int)
deriving DecidableEq

/-- Python truthiness of a parameter value. -/
def truthy : PVal → Bool
  | .pbool b => b
  | .pnum q => decide (q ≠ 0)
  | .pstr s => decide (s ≠ "")
  | .plist l => decide (l ≠ [])

/-- Python `float(v)`: numbers pass through, booleans coerce to 0/1,
strings and lists fail (`ValueError`/`TypeError`, surfacing as the
converter's exception path). -/
def pyFloat : PVal → Option ℚ
  | .pbool b => some (if b then 1 else 0)
  | .pnum q => some q
  | .pstr _ => none
  | .plist _ => none

/-- Python `int(v)`: truncation toward zero for numbers, 0/1 for
booleans, failure otherwise. -/
def pyInt : PVal → Option Int
  | .pbool b => some (if b then 1 else 0)
  | .pnum q => some (if 0 ≤ q then ⌊q⌋ else ⌈q⌉)
  | .pstr _ => none
  | .plist _ => none

/-- The parameter dictionary view of an action, `key ↦ value`. -/
abbrev Params := String → Option PVal

/-- A VDA5050 instant action as a typed record: the standard fields, the
`actionParameters` key/value list, and any further top-level keys
(`_parse_action_parameters` also reads those). -/
structure IAction where
  actionType : Option String
  actionId : Option String
  actionDescription : Option String
  actionParameters : List (String × PVal)
  extra : List (String × PVal)

/-- `_parse_action_parameters` (tcp_instantActions.py, lines 284-307):
`actionParameters` entries first, then direct top-level keys, later
assignments overriding earlier ones — i.e. the last binding of a key
wins, with `extra` overriding `actionParameters`. -/
def paramsOf (a : IAction) : Params := fun k =>
  match List.lookup k a.extra.reverse with
  | some v => some v
  | none => List.lookup k a.actionParameters.reverse

/-- One `if key in params and params[key] != '': d[key] = float(params[key])`
step; a failing `float()` aborts the whole conversion (`none`). -/
def addFloatField (p : Params) (key : String) (d : List (String × PVal)) :
    Option (List (String × PVal)) :=
  match p key with
  | none => some d
  | some v =>
    if v = .pstr "" then some d
    else match pyFloat v with
      | some q => some (d ++ [(key, .pnum q)])
      | none => none

/-- The same step with `int(...)` (the `mode` / `spin_direction` keys). -/
def addIntField (p : Params) (key : String) (d : List (String × PVal)) :
    Option (List (String × PVal)) :=
  match p key with
  | none => some d
  | some v =>
    if v = .pstr "" then some d
    else match pyInt v with
      | some i => some (d ++ [(key, .pnum (i : ℚ))])
      | none => none

/-- The `reloc` branch of `_generate_single_field_data`
(tcp_instantActions.py, lines 189-209): forward `isAuto` and `home`
verbatim whenever present, forward `length` as a float when present and
not the empty string, and add the coordinates `x`, `y`, `angle` only when
`isAuto` and `home` are both absent or falsy. -/
def gen_reloc_fields (p : Params) : Option (List (String × PVal)) := do
  let d0 : List (String × PVal) := []
  let d1 := match p "isAuto" with
    | some v => d0 ++ [("isAuto", v)]
    | none => d0
  let d2 := match p "home" with
    | some v => d1 ++ [("home", v)]
    | none => d1
  let d3 ← addFloatField p "length" d2
  let isAuto := truthy ((p "isAuto").getD (.pbool false))
  let home := truthy ((p "home").getD (.pbool false))
  if !isAuto && !home then do
    let d4 ← addFloatField p "x" d3
    let d5 ← addFloatField p "y" d4
    addFloatField p "angle" d5
  else
    pure d3

/-- The `clearErrors` branch (lines 211-236): a present, truthy
`error_codes` list is forwarded verbatim; a string is parsed (JSON list,
else comma-separated integers) — that parsing is abstracted by the
`codesOf` oracle, `none` meaning nothing parsed; every failure is
swallowed (`try/except: pass`), so this branch is total. -/
def gen_clear_errors_fields (codesOf : String → Option (List Int))
    (p : Params) : List (String × PVal) :=
  match p "error_codes" with
  | some v =>
    if truthy v then
      match v with
      | .plist l => [("error_codes", .plist l)]
      | .pstr s =>
        match codesOf s with
        | some l => [("error_codes", .plist l)]
        | none => []
      | _ => []
    else []
  | none => []

/-- The `translate` branch (lines 238-248): `dist`, `vx`, `vy` as floats,
`mode` as an int, each only when present and not the empty string. -/
def gen_translate_fields (p : Params) : Option (List (String × PVal)) := do
  let d1 ← addFloatField p "dist" []
  let d2 ← addFloatField p "vx" d1
  let d3 ← addFloatField p "vy" d2
  addIntField p "mode" d3

/-- The `turn` branch (lines 250-258): `angle`, `vw` as floats, `mode` as
an int. -/
def gen_turn_fields (p : Params) : Option (List (String × PVal)) := do
  let d1 ← addFloatField p "angle" []
  let d2 ← addFloatField p "vw" d1
  addIntField p "mode" d2

/-- The `rotateLoad` branch (lines 260-270). -/
def gen_rotate_load_fields (p : Params) : Option (List (String × PVal)) := do
  let d1 ← addFloatField p "increase_spin_angle" []
  let d2 ← addFloatField p "robot_spin_angle" d1
  let d3 ← addFloatField p "global_spin_angle" d2
  addIntField p "spin_direction" d3

/-- The `softEmc` branch (lines 272-280): a present `status` becomes a
boolean — string values compare lower-cased against `"true"`, anything
else is Python `bool(...)` truthiness. -/
def gen_soft_emc_fields (p : Params) : List (String × PVal) :=
  match p "status" with
  | some v =>
    [("status", .pbool (match v with
      | .pstr s => decide (s.toLower = "true")
      | w => truthy w))]
  | none => []

/-- `_generate_single_field_data` (tcp_instantActions.py, lines 177-282):
dispatch on the action type; unrecognised single-field types produce the
empty dictionary. -/
def generate_single_field_data (codesOf : String → Option (List Int))
    (a : IAction) : Option (List (String × PVal)) :=
  let p := paramsOf a
  match a.actionType with
  | some "reloc" => gen_reloc_fields p
  | some "clearErrors" => some (gen_clear_errors_fields codesOf p)
  | some "translate" => gen_translate_fields p
  | some "turn" => gen_turn_fields p
  | some "rotateLoad" => gen_rotate_load_fields p
  | some "softEmc" => some (gen_soft_emc_fields p)
  | _ => some []

/-- `generate_tcp_task_id` (tcp_instantActions.py, lines 86-106): a truthy
base gives `base ++ "_" ++ counter` with the protocol counter saved and
restored; an empty base falls back to the impure time-stamped generator,
abstracted by the `fresh` oracle at the current counter. -/
def instant_generate_task_id (fresh : Nat → String) (base : String)
    (k : Nat) : String :=
  if base ≠ "" then base ++ "_" ++ toString k else fresh k

/-- One entry of a `move_task_list` body built for `pick`/`drop`. -/
structure InstantMoveTask where
  id : String
  source_id : String
  task_id : String
  operation : String
deriving DecidableEq

/-- A generated TCP body: the `move_task_list` shape of `pick`/`drop`, or
a flat object (empty for the empty-data shape). -/
inductive TcpData where
  | moveTasks (ts : List InstantMoveTask)
  | obj (fields : List (String × PVal))
deriving DecidableEq

/-- `TCPActionResult` (tcp_instantActions.py, lines 33-43). -/
structure TCPActionResult where
  action_type : String
  action_id : String
  action_description : String
  port : Nat
  message_type : Nat
  data_format : DataFormatType
  data : TcpData
  tcp_operation : String
deriving DecidableEq

/-- `_generate_tcp_data` (tcp_instantActions.py, lines 141-175). -/
def generate_tcp_data (fresh : Nat → String)
    (codesOf : String → Option (List Int)) (a : IAction)
    (cfg : ActionConfig) (base : String) (k : Nat) : Option TcpData :=
  match cfg.data_format with
  | .move_task_list =>
    (ACTION_MAPPING (a.actionType.getD "")).map (fun op =>
      .moveTasks [⟨"SELF_POSITION", "SELF_POSITION",
        instant_generate_task_id fresh base k, op⟩])
  | .empty_data => some (.obj [])
  | .single_field => (generate_single_field_data codesOf a).map .obj

/-- Outcome of converting one action: unrecognised actions are skipped,
an exception in body generation aborts the whole conversion, otherwise a
`TCPActionResult` is produced. -/
inductive SingleOutcome where
  | skip
  | fail
  | ok (r : TCPActionResult)

/-- `convert_single_action` (tcp_instantActions.py, lines 108-139): `None`
(here `.skip`) when `actionType` is falsy or not in the mapping table;
otherwise the action's config row and vendor operation name are attached
to the generated body. -/
def convert_single_action (fresh : Nat → String)
    (codesOf : String → Option (List Int)) (a : IAction) (base : String)
    (k : Nat) : SingleOutcome :=
  match a.actionType with
  | none => .skip
  | some t =>
    match ACTION_MAPPING t, ACTION_CONFIG t with
    | some op, some cfg =>
      match generate_tcp_data fresh codesOf a cfg base k with
      | some d => .ok ⟨t, a.actionId.getD "", a.actionDescription.getD "",
          cfg.port, cfg.message_type, cfg.data_format, d, op⟩
      | none => .fail
    | _, _ => .skip

/-- The loop of `convert_vda5050_instant_actions` (lines 332-339): walk
the actions, skipping unrecognised ones, incrementing the task-id counter
only for converted ones; an exception (`.fail`) aborts everything. -/
def convert_actions_loop (fresh : Nat → String)
    (codesOf : String → Option (List Int)) (base : String) :
    List IAction → Nat → Option (List TCPActionResult)
  | [], _ => some []
  | a :: as, k =>
    match convert_single_action fresh codesOf a base k with
    | .skip => convert_actions_loop fresh codesOf base as k
    | .fail => none
    | .ok r => (convert_actions_loop fresh codesOf base as (k + 1)).map
        (fun rs => r :: rs)

/-- One element of the `instant_actions` list returned for two or more
recognised actions (tcp_instantActions.py, lines 355-366). -/
structure InstantEntry where
  actionType : String
  actionId : String
  actionDescription : String
  port : Nat
  messageType : Nat
  dataFormat : DataFormatType
  tcpOperation : String
  data : TcpData
deriving DecidableEq

def entryOfResult (r : TCPActionResult) : InstantEntry :=
  ⟨r.action_type, r.action_id, r.action_description, r.port,
   r.message_type, r.data_format, r.tcp_operation, r.data⟩

/-- The three result shapes of `convert_vda5050_instant_actions`: an
error dictionary (the `"error"` key), the bare body dictionary of a
single recognised action, or the `"instant_actions"` listing for several
(tcp_instantActions.py, lines 341-372). -/
inductive ConvertResult where
  | errorRes (msg : String)
  | singleRes (data : TcpData)
  | multiRes (entries : List InstantEntry)
deriving DecidableEq

/-- The instant-actions payload: `headerId` and the `actions` array (an
absent array is the empty list; the source's non-list type guard is
outside the typed model). -/
structure InstantActionsInput where
  headerId : Option Nat
  actions : List IAction

/-- `base_task_id` (tcp_instantActions.py, line 320):
`str(headerId)` for a truthy `headerId`, else the empty string. -/
def base_task_id_of (inp : InstantActionsInput) : String :=
  match inp.headerId with
  | some n => if n = 0 then "" else toString n
  | none => ""

/-- `convert_vda5050_instant_actions` (tcp_instantActions.py, lines
309-378): exceptions and the no-recognised-action case yield error
dictionaries; one recognised action returns its body alone; several
return the `instant_actions` listing. -/
def convert_vda5050_instant_actions (fresh : Nat → String)
    (codesOf : String → Option (List Int)) (inp : InstantActionsInput) :
    ConvertResult :=
  match convert_actions_loop fresh codesOf (base_task_id_of inp)
      inp.actions 1 with
  | none => .errorRes "conversion failed"
  | some [] => .errorRes "no supported actions"
  | some [r] => .singleRes r.data
  | some rs => .multiRes (rs.map entryOfResult)

/-- An action is recognised exactly when its `actionType` is present and
in the registry: `convert_single_action` looks the type up in
`ACTION_MAPPING` and then in `ACTION_CONFIG`; the two tables carry the
same twelve keys, so this conjunction is plain membership in the
registry. -/
def is_recognized (a : IAction) : Bool :=
  match a.actionType with
  | some t => (ACTION_MAPPING t).isSome && (ACTION_CONFIG t).isSome
  | none => false


/-- The parameter dictionary of a well-typed `reloc` action: booleans for
`isAuto`/`home`, numbers for `length`/`x`/`y`/`angle`, each independently
present or absent. -/
def mkRelocParams (auto home : Option Bool) (len xv yv av : Option ℚ) :
    Params := fun k =>
  if k = "isAuto" then auto.map .pbool
  else if k = "home" then home.map .pbool
  else if k = "length" then len.map .pnum
  else if k = "x" then xv.map .pnum
  else if k = "y" then yv.map .pnum
  else if k = "angle" then av.map .pnum
  else none

/-- Whether the generated body contains a key. -/
def hasKey (d : List (String × PVal)) (k : String) : Bool :=
  d.any (fun e => e.1 = k)

/-- C8: for every `reloc` instant action (booleans for `isAuto`/`home`,
numbers for the rest), the generated params body forwards `isAuto`,
`home` and `length` exactly when present, and contains the coordinate
keys `x`, `y`, `angle` exactly when they are supplied *and* `isAuto` and
`home` are both absent or false; when either is true the coordinates are
omitted even if supplied. -/
theorem C8_reloc_param_gating (auto home : Option Bool)
    (len xv yv av : Option ℚ) :
    ∃ d, gen_reloc_fields (mkRelocParams auto home len xv yv av) = some d ∧
      hasKey d "isAuto" = auto.isSome ∧
      hasKey d "home" = home.isSome ∧
      hasKey d "length" = len.isSome ∧
      hasKey d "x" = (!(auto.getD false) && !(home.getD false) && xv.isSome) ∧
      hasKey d "y" = (!(auto.getD false) && !(home.getD false) && yv.isSome) ∧
      hasKey d "angle" = (!(auto.getD false) && !(home.getD false) && av.isSome) := by
  have hA : auto = none ∨ auto = some false ∨ auto = some true := by
    rcases auto with _ | b
    · exact Or.inl rfl
    · cases b
      · exact Or.inr (Or.inl rfl)
      · exact Or.inr (Or.inr rfl)
  have hH : home = none ∨ home = some false ∨ home = some true := by
    rcases home with _ | b
    · exact Or.inl rfl
    · cases b
      · exact Or.inr (Or.inl rfl)
      · exact Or.inr (Or.inr rfl)
  rcases hA with rfl | rfl | rfl <;> rcases hH with rfl | rfl | rfl <;>
    rcases len with _ | lq <;> rcases xv with _ | xq <;>
    rcases yv with _ | yq <;> rcases av with _ | aq <;>
    exact ⟨_, rfl, rfl, rfl, rfl, rfl, rfl, rfl⟩

theorem not_recognized_of_skip (fresh : Nat → String)
    (codesOf : String → Option (List Int)) (a : IAction) (base : String)
    (k : Nat) (h : convert_single_action fresh codesOf a base k = .skip) :
    is_recognized a = false := by
  unfold convert_single_action at h
  unfold is_recognized
  rcases ha : a.actionType with _ | t
  · simp only [ha]
  · simp only [ha] at h ⊢
    rcases hm : ACTION_MAPPING t with _ | op
    · simp [hm]
    · rcases hc : ACTION_CONFIG t with _ | cfg
      · simp [hm, hc]
      · exfalso
        simp only [hm, hc] at h
        rcases hg : generate_tcp_data fresh codesOf a cfg base k with _ | d <;>
          simp only [hg] at h <;> cases h

theorem convert_single_action_skip_of (fresh : Nat → String)
    (codesOf : String → Option (List Int)) (a : IAction) (base : String)
    (k : Nat) (h : is_recognized a = false) :
    convert_single_action fresh codesOf a base k = .skip := by
  unfold convert_single_action
  unfold is_recognized at h
  rcases ha : a.actionType with _ | t
  · simp only [ha]
  · simp only [ha] at h
    rcases hm : ACTION_MAPPING t with _ | op
    · simp only [ha, hm]
    · rcases hc : ACTION_CONFIG t with _ | cfg
      · simp only [ha, hm, hc]
      · exfalso
        rw [hm, hc] at h
        simp at h

theorem convert_actions_loop_length (fresh : Nat → String)
    (codesOf : String → Option (List Int)) (base : String) :
    ∀ (as : List IAction) (k : Nat) (rs : List TCPActionResult),
      convert_actions_loop fresh codesOf base as k = some rs →
      rs.length = (as.filter is_recognized).length := by
  intro as
  induction as with
  | nil =>
    intro k rs h
    simp only [convert_actions_loop, Option.some.injEq] at h
    simp [← h]
  | cons a as ih =>
    intro k rs h
    unfold convert_actions_loop at h
    rcases hs : convert_single_action fresh codesOf a base k with _ | _ | r <;>
      rw [hs] at h
    · have hrec := not_recognized_of_skip fresh codesOf a base k hs
      rw [List.filter_cons, hrec]
      simp only [Bool.false_eq_true, if_false]
      exact ih k rs h
    · exact absurd h (by simp)
    · have hrec : is_recognized a = true := by
        cases hx : is_recognized a
        · exact absurd hs (by
            rw [convert_single_action_skip_of fresh codesOf a base k hx]
            intro hy
            cases hy)
        · rfl
      rcases hloop : convert_actions_loop fresh codesOf base as (k + 1) with _ | rs0 <;>
        rw [hloop] at h
      · cases h
      · have h' : r :: rs0 = rs := by
          simpa using h
        rw [← h', List.filter_cons, hrec]
        simp [ih (k + 1) rs0 hloop]

/-- The C10 counterexample input: exactly one recognised action — a
`reloc` whose `length` parameter is the non-numeric string `"abc"`.  In
the source, `float("abc")` raises and the outer `try` of
`convert_vda5050_instant_actions` returns the error dictionary, not the
action's body. -/
def c10FailInput : InstantActionsInput :=
  ⟨some 12345, [⟨some "reloc", some "a1", none, [("length", .pstr "abc")], []⟩]⟩

/-- C10 counterexample: an input with exactly one recognised action on
which the converter returns the error dictionary rather than that
action's body dictionary — `reloc` is recognised, but generating its
body applies `float()` to the non-numeric `length` value and the
exception path yields the `"error"` result.  This refutes the claim's
unconditional "with exactly one recognised action it returns only that
action's body dictionary". -/
theorem C10_counterexample :
    (c10FailInput.actions.filter is_recognized).length = 1 ∧
    convert_vda5050_instant_actions (fun _ => "F") (fun _ => none) c10FailInput =
      .errorRes "conversion failed" := by
  decide

/-- C10, amended: the converter's result shape is decided by how many
recognised actions the input contains, *provided body generation raises
no exception* — when any recognised action's body generation raises
(for instance `float()` applied to a non-numeric parameter), the whole
result is the error dictionary instead.  Whenever the action loop
completes without an exception (result `rs`): `rs` has exactly one
element per recognised action; zero recognised actions yield the error
dictionary (never an empty list); exactly one yields only that action's
body (no port, no message type); two or more yield the
`instant_actions` listing with the per-action port, message type and
data. -/
theorem C10_result_shape (fresh : Nat → String)
    (codesOf : String → Option (List Int)) (inp : InstantActionsInput)
    (rs : List TCPActionResult)
    (h : convert_actions_loop fresh codesOf (base_task_id_of inp)
      inp.actions 1 = some rs) :
    rs.length = (inp.actions.filter is_recognized).length ∧
    (rs = [] → convert_vda5050_instant_actions fresh codesOf inp =
      .errorRes "no supported actions") ∧
    (∀ r, rs = [r] → convert_vda5050_instant_actions fresh codesOf inp =
      .singleRes r.data) ∧
    (2 ≤ rs.length → convert_vda5050_instant_actions fresh codesOf inp =
      .multiRes (rs.map entryOfResult)) := by
  refine ⟨convert_actions_loop_length fresh codesOf _ inp.actions 1 rs h, ?_, ?_, ?_⟩
  · intro hrs
    unfold convert_vda5050_instant_actions
    rw [h, hrs]
  · intro r hrs
    unfold convert_vda5050_instant_actions
    rw [h, hrs]
  · intro hlen
    unfold convert_vda5050_instant_actions
    rw [h]
    rcases rs with _ | ⟨r1, _ | ⟨r2, rs⟩⟩
    · simp at hlen
    · simp at hlen
    · rfl

/-- Input for the C10 witness: headerId 12345 and two recognised
empty-data actions, `startPause` and `stopPause`. -/
def c10Input : InstantActionsInput :=
  ⟨some 12345,
   [⟨some "startPause", some "a1", none, [], []⟩,
    ⟨some "stopPause", some "a2", none, [], []⟩]⟩

/-- The first result the loop computes on `c10Input`. -/
def c10r1 : TCPActionResult :=
  ⟨"startPause", "a1", "", 19206, 3001, .empty_data, .obj [], "Pause"⟩

/-- The second result the loop computes on `c10Input`. -/
def c10r2 : TCPActionResult :=
  ⟨"stopPause", "a2", "", 19206, 3002, .empty_data, .obj [], "Resume"⟩

/-- C10 witness: on the two-action input the loop yields `[c10r1, c10r2]`
and the converter returns the `instant_actions` listing. -/
theorem C10_result_shape_witness :
    ([c10r1, c10r2] : List TCPActionResult).length =
      (c10Input.actions.filter is_recognized).length ∧
    (([c10r1, c10r2] : List TCPActionResult) = [] →
      convert_vda5050_instant_actions (fun _ => "F") (fun _ => none) c10Input =
        .errorRes "no supported actions") ∧
    (∀ r, ([c10r1, c10r2] : List TCPActionResult) = [r] →
      convert_vda5050_instant_actions (fun _ => "F") (fun _ => none) c10Input =
        .singleRes r.data) ∧
    (2 ≤ ([c10r1, c10r2] : List TCPActionResult).length →
      convert_vda5050_instant_actions (fun _ => "F") (fun _ => none) c10Input =
        .multiRes ([c10r1, c10r2].map entryOfResult)) :=
  C10_result_shape (fun _ => "F") (fun _ => none) c10Input [c10r1, c10r2]
    (by decide)
